import Mathlib

/-!
# Verification of the flight-row splitting core (`src/flight_processor.py`)

A shallow embedding of the segment extraction, temporal grouping and
row-reassembly pipeline of `flight_processor.py`, together with the
persistence calls it issues through `database.FlightRepository`.

Modelling choices:

* A database cell (`Value`) is either Python `None`/`NaN` (`Value.null`),
  a plain string that `pd.to_datetime` cannot parse (`Value.str`), or a
  value that parses to a timestamp (`Value.dateStr t`).  Timestamps are
  integers counting microseconds (the resolution of
  `timedelta.total_seconds`), so an hours difference is an exact `ℚ`
  (the Python floats involved are exact at every magnitude the claims
  touch; `mkRat` is used for the quotient because Mathlib's sealed `ℚ`
  field operations do not reduce in the kernel).
* A row (Python dict) is an association list `List (String × Value)`;
  `Row.getv` returns `Value.null` for an absent key, matching
  `dict.get(k)` returning `None`.  Assignment conses an overriding
  binding, so lookup semantics match dict mutation.
* `config.py` is not among the sources; its constants are modelled from
  the spec (7 segment slots, 24-hour threshold, the two column-name
  stems visible in `database.py`'s schema).
* `FlightEntry` / `FlightGroup` are taken from the (commented-out)
  definitions in `models.py`, which match every use site in
  `flight_processor.py`.
* The persistence gateway is modelled as an effect trace: the processor
  returns its `ProcessingResult` together with the ordered list of
  repository calls it made.  `FlightRepository` exposes only
  `insert_flight` and `update_flight`; a `delete` constructor is kept in
  the effect type so that claims about deletion are statable, but no
  code path emits it.
-/

inductive Value where
  | null
  | str (s : String)
  | dateStr (t : Int)
deriving DecidableEq, Repr

/-- `pd.notnull`: false exactly for `None`/`NaN`. -/
def pd_notnull : Value → Bool
  | Value.null => false
  | _ => true

/-- Python truthiness of a cell (`None` and `""` are falsy). -/
def pyTruthy : Value → Bool
  | Value.null => false
  | Value.str s => !s.isEmpty
  | Value.dateStr _ => true

/-- `str(value)` as used by `has_bus_transition`; only the string case is
exercised by the claims, a timestamp's rendering never ends in a digit
run we care about so it is abstracted to a fixed tag. -/
def valueStr : Value → String
  | Value.null => "None"
  | Value.str s => s
  | Value.dateStr _ => "<timestamp>"

def Row : Type := List (String × Value)

instance : DecidableEq Row := inferInstanceAs (DecidableEq (List (String × Value)))

instance : Repr Row := inferInstanceAs (Repr (List (String × Value)))

/-- `dict.get(k)` without default: `None` when absent. -/
def Row.get (r : Row) (k : String) : Option Value :=
  List.lookup k r

/-- `dict.get(k, d)`. -/
def Row.getD (r : Row) (k : String) (d : Value) : Value :=
  (r.get k).getD d

/-- `dict.get(k)` collapsing "absent" to `None`. -/
def Row.getv (r : Row) (k : String) : Value :=
  r.getD k Value.null

/-- `dict[k] = v`. -/
def Row.set (r : Row) (k : String) (v : Value) : Row :=
  (k, v) :: r

namespace config

/-- Modelled from the spec: `config.py` is missing from the sources; the
spec fixes the row at 7 segment slots. -/
def MAX_FLIGHT_ENTRIES : Nat := 7

/-- Modelled from the spec: the temporal gap threshold is 24 hours. -/
def HOURS_THRESHOLD : ℚ := 24

end config

/-- `f"FlightNumber{i}"` (stem visible in `database.py`'s column list). -/
def fnKey (i : Nat) : String := "FlightNumber" ++ toString i

/-- `f"DepartureDateLocal{i}"`. -/
def ddKey (i : Nat) : String := "DepartureDateLocal" ++ toString i

/-- The slot indices `range(1, config.MAX_FLIGHT_ENTRIES + 1)`. -/
def slotIdxs : List Nat := List.range' 1 config.MAX_FLIGHT_ENTRIES

/-- `str.endswith(suffix)`, implemented over the character list (the
built-in `String.endsWith` is equivalent but does not reduce in the
kernel). -/
def strEndsWith (s suffix_ : String) : Bool :=
  List.isSuffixOf suffix_.data s.data

/-- `FlightProcessor.has_bus_transition`. -/
def has_bus_transition (row : Row) : Bool :=
  slotIdxs.any fun i =>
    let flight_number := row.getv (fnKey i)
    pyTruthy flight_number && strEndsWith (valueStr flight_number) "000"

/-- `FlightProcessor.calculate_hours_difference` (timestamps in
microseconds, so `diff.total_seconds() / 3600` is the exact rational
`(next - first) / 3_600_000_000`; `None` arguments yield `0.0` as in the
source). -/
def calculate_hours_difference : Option Int → Option Int → ℚ
  | none, _ => 0
  | some _, none => 0
  | some first_date, some next_date => mkRat (next_date - first_date) 3600000000

/-- One iteration of the extraction loop of
`FlightProcessor.extract_flight_data_from_row`: slot `i` appends the
flight number when non-null and not the `'NULL'` sentinel, and appends
the departure date when non-null, not `'NULL'`, and parseable. -/
def extractStep (row : Row) (acc : List Int × List Value) (i : Nat) :
    List Int × List Value :=
  let flight_number := row.getv (fnKey i)
  let departure_date_str := row.getv (ddKey i)
  let flights :=
    if pd_notnull flight_number && (flight_number != Value.str "NULL") then
      acc.2 ++ [flight_number]
    else acc.2
  let dates :=
    if pd_notnull departure_date_str && (departure_date_str != Value.str "NULL") then
      match departure_date_str with
      | Value.dateStr t => acc.1 ++ [t]
      | _ => acc.1
    else acc.1
  (dates, flights)

/-- `FlightProcessor.extract_flight_data_from_row`. -/
def extract_flight_data_from_row (row : Row) : List Int × List Value :=
  slotIdxs.foldl (extractStep row) ([], [])

/-- `models.FlightEntry` (from the commented-out dataclass, as used by
`flight_processor.py`). -/
structure FlightEntry where
  flight_number : Value
  departure_date : Int
deriving DecidableEq, Repr

/-- `models.FlightGroup`. -/
structure FlightGroup where
  entries : List FlightEntry
deriving DecidableEq, Repr

/-- The walk of `group_flights_by_departure_date`: `prev` is the previous
raw departure date, `rest` the remaining (date, flight) pairs, `cur` the
group under construction; on exit the in-progress group is appended when
non-empty. -/
def groupAux (prev : Int) (rest : List (Int × Value)) (cur : FlightGroup) :
    List FlightGroup :=
  match rest with
  | [] => if cur.entries.isEmpty then [] else [cur]
  | (current_date, fn) :: rest' =>
    if calculate_hours_difference (some prev) (some current_date) <
        config.HOURS_THRESHOLD then
      groupAux current_date rest'
        ⟨cur.entries ++ [⟨fn, current_date⟩]⟩
    else
      cur :: groupAux current_date rest' ⟨[⟨fn, current_date⟩]⟩

/-- `FlightProcessor.group_flights_by_departure_date`; the raised
`FlightProcessorError` is modelled as the `Except.error` case. -/
def group_flights_by_departure_date (departure_dates : List Int)
    (flight_numbers : List Value) : Except String (List FlightGroup) :=
  if departure_dates.length ≠ flight_numbers.length then
    Except.error ("Mismatched lengths: " ++ toString departure_dates.length
      ++ " dates, " ++ toString flight_numbers.length ++ " flights")
  else
    match departure_dates, flight_numbers with
    | d :: ds, f :: fs => Except.ok (groupAux d (ds.zip fs) ⟨[⟨f, d⟩]⟩)
    | _, _ => Except.ok []

instance {ε α : Type} [DecidableEq ε] [DecidableEq α] :
    DecidableEq (Except ε α) := fun x y =>
  match x, y with
  | Except.ok a, Except.ok b =>
      if h : a = b then isTrue (by rw [h]) else isFalse (by simp [h])
  | Except.error a, Except.error b =>
      if h : a = b then isTrue (by rw [h]) else isFalse (by simp [h])
  | Except.ok _, Except.error _ => isFalse (by simp)
  | Except.error _, Except.ok _ => isFalse (by simp)



/-- Inner loop of `FlightProcessor.create_insert_row_data`: for each
entry of the current group (index `entry_idx`, starting at 0), provided
`group_idx + entry_idx < 7`, slot `group_idx + entry_idx` of the row
being built receives the ORIGINAL row's slot `group_idx + entry_idx + 1`
and that source slot is then cleared to `None`.  The entry's own content
is never consulted (only its position), exactly as in the source. -/
def insertLoopInner (original_row : Row) (group_idx : Nat)
    (entries : List FlightEntry) (entry_idx : Nat) (acc : Row) : Row :=
  match entries with
  | [] => acc
  | _ :: rest =>
    if group_idx + entry_idx ≥ config.MAX_FLIGHT_ENTRIES then acc
    else
      insertLoopInner original_row group_idx rest (entry_idx + 1)
        ((((acc.set (fnKey (group_idx + entry_idx))
              (original_row.getv (fnKey (group_idx + entry_idx + 1)))).set
            (ddKey (group_idx + entry_idx))
              (original_row.getv (ddKey (group_idx + entry_idx + 1)))).set
          (fnKey (group_idx + entry_idx + 1)) Value.null).set
          (ddKey (group_idx + entry_idx + 1)) Value.null)

/-- Outer loop of `create_insert_row_data`: `group_idx` starts at 1 and
increases by one per group; the loop stops once `group_idx ≥ 7`. -/
def insertLoopOuter (original_row : Row) (group_idx : Nat)
    (groups : List FlightGroup) (acc : Row) : Row :=
  match groups with
  | [] => acc
  | grp :: rest =>
    if group_idx ≥ config.MAX_FLIGHT_ENTRIES then acc
    else
      insertLoopOuter original_row (group_idx + 1) rest
        (insertLoopInner original_row group_idx grp.entries 0 acc)

/-- The row built by `create_insert_row_data` when it does build one
(`insert_data = original_row.copy()` then the two nested loops). -/
def insertRowData (original_row : Row) (groups : List FlightGroup) : Row :=
  insertLoopOuter original_row 1 groups original_row

/-- `FlightProcessor.create_insert_row_data`. -/
def create_insert_row_data (original_row : Row) (groups : List FlightGroup) :
    Option Row :=
  if groups.length ≤ 1 then none
  else some (insertRowData original_row groups)

/-- The flight-number half of one step of the clearing loop of
`FlightProcessor.create_update_row_data`: slot `i`'s flight-number cell
is replaced by `None` when it holds the literal string `'NULL'`. -/
def updStepFlight (r : Row) (i : Nat) : Row :=
  if r.getv (fnKey i) = Value.str "NULL" then r.set (fnKey i) Value.null
  else r

/-- The departure-date half of the same loop body. -/
def updStepDate (r : Row) (i : Nat) : Row :=
  if r.getv (ddKey i) = Value.str "NULL" then r.set (ddKey i) Value.null
  else r

/-- The whole loop body: flight-number cell first, then date cell. -/
def updStep (update_data : Row) (i : Nat) : Row :=
  updStepDate (updStepFlight update_data i) i

/-- `FlightProcessor.create_update_row_data` (the `groups` argument is
accepted but never read, as in the source). -/
def create_update_row_data (original_row : Row)
    (_groups : List FlightGroup) : Row :=
  slotIdxs.foldl updStep original_row

/-- `models.FlightRow` (only the fields the live code keeps). -/
structure FlightRow where
  pax_name : Value
  booking_ref : Value
  client_code : Value
  airline : Value
  journey_type : Value
  e_ticket_no : Value
  airports : List Value
deriving DecidableEq, Repr

/-- `models.FlightRow.from_dataframe_row`. -/
def FlightRow.from_dataframe_row (row : Row) : FlightRow :=
  { pax_name := row.getD "PaxName" (Value.str "")
  , booking_ref := row.getD "BookingRef" (Value.str "")
  , client_code := row.getv "ClientCode"
  , airline := row.getv "Airline"
  , journey_type := row.getv "JourneyType"
  , e_ticket_no := row.getv "ETicketNo"
  , airports := (List.range' 1 8).map fun i => row.getv ("Airport" ++ toString i) }

/-- `models.ProcessingResult` (the `message` is always set on every path
of `process_flight_row`, so it is not optional here). -/
structure ProcessingResult where
  original_row : FlightRow
  groups : List FlightGroup
  success : Bool
  message : String
deriving DecidableEq, Repr

/-- A call made to the persistence gateway (`database.FlightRepository`).
The repository only exposes `insert_flight` and `update_flight`; the
`delete` constructor exists so that claims about deletion can be stated,
and is never produced by the processor. -/
inductive Effect where
  | insert (row : Row)
  | update (row : Row)
  | delete (row : Row)
deriving DecidableEq, Repr

def Effect.isInsert : Effect → Bool
  | Effect.insert _ => true
  | _ => false

def Effect.isUpdate : Effect → Bool
  | Effect.update _ => true
  | _ => false

def Effect.isDelete : Effect → Bool
  | Effect.delete _ => true
  | _ => false

/-- `FlightProcessor.process_flight_row`, returning the
`ProcessingResult` together with the ordered trace of repository calls.
The only exception reachable from the `try` block is the
`FlightProcessorError` raised by the grouper on mismatched lengths
(modelled as `Except.error`), which the `except` clause converts into a
failed result. -/
def process_flight_row (row_data : Row) : ProcessingResult × List Effect :=
  let ext := extract_flight_data_from_row row_data
  let departure_dates := ext.1
  let flight_numbers := ext.2
  if departure_dates = [] ∨ flight_numbers = [] then
    ({ original_row := FlightRow.from_dataframe_row row_data
     , groups := []
     , success := true
     , message := "No flight data to process" }, [])
  else
    match group_flights_by_departure_date departure_dates flight_numbers with
    | Except.error e =>
      ({ original_row := FlightRow.from_dataframe_row row_data
       , groups := []
       , success := false
       , message := "Processing failed: " ++ e }, [])
    | Except.ok groups =>
      if groups.length ≤ 1 then
        ({ original_row := FlightRow.from_dataframe_row row_data
         , groups := groups
         , success := true
         , message := "Single group - no processing needed" }, [])
      else
        match create_insert_row_data row_data groups with
        | some insert_data =>
          ({ original_row := FlightRow.from_dataframe_row row_data
           , groups := groups
           , success := true
           , message := "Row processed and database updated" },
           [Effect.insert insert_data,
            Effect.update (create_update_row_data row_data groups)])
        | none =>
          ({ original_row := FlightRow.from_dataframe_row row_data
           , groups := groups
           , success := true
           , message := "No database changes needed" }, [])



/-- A concrete row holding a single valid segment. -/
def rowSingle : Row :=
  [("PaxName", Value.str "P"), ("BookingRef", Value.str "B1"),
   ("FlightNumber1", Value.str "AA1"),
   ("DepartureDateLocal1", Value.dateStr 0)]

/-- A concrete row whose two segments are 200 hours apart, hence fall
into two groups. -/
def rowMulti : Row :=
  [("PaxName", Value.str "P"), ("BookingRef", Value.str "B1"),
   ("FlightNumber1", Value.str "AA1"),
   ("DepartureDateLocal1", Value.dateStr 0),
   ("FlightNumber2", Value.str "AA2"),
   ("DepartureDateLocal2", Value.dateStr 720000000000)]

/-- The two groups the code computes for `rowMulti`. -/
def gsMulti : List FlightGroup :=
  [⟨[⟨Value.str "AA1", 0⟩]⟩, ⟨[⟨Value.str "AA2", 720000000000⟩]⟩]

/-- A concrete row whose (single, final) group contains a duplicated
timestamp and a duplicated flight number. -/
def rowDup : Row :=
  [("PaxName", Value.str "P"), ("BookingRef", Value.str "B1"),
   ("FlightNumber1", Value.str "A"),
   ("DepartureDateLocal1", Value.dateStr 0),
   ("FlightNumber2", Value.str "A"),
   ("DepartureDateLocal2", Value.dateStr 0)]

/-- A concrete row whose only flight number ends in three zeros. -/
def rowBus : Row :=
  [("PaxName", Value.str "P"), ("BookingRef", Value.str "B1"),
   ("FlightNumber1", Value.str "AB1000"),
   ("DepartureDateLocal1", Value.dateStr 0)]

/-- A concrete row with a `'NULL'` sentinel in a segment slot. -/
def rowNullSentinel : Row :=
  [("PaxName", Value.str "P"), ("FlightNumber1", Value.str "NULL"),
   ("DepartureDateLocal1", Value.dateStr 0)]

/-- Modelled from the spec (contract 4.3-A of the Row Reassembler, which
has no counterpart in the code): clear all 7 segment slots of the
original row, then write the group's entries densely into slots
1..len(group) in group order; every other field is left as in the
original row. -/
def build_group_row_spec (original_row : Row) (g : FlightGroup) : Row :=
  let cleared := slotIdxs.foldl
    (fun r i => (r.set (fnKey i) Value.null).set (ddKey i) Value.null)
    original_row
  (List.zip (List.range' 1 g.entries.length) g.entries).foldl
    (fun r p => (r.set (fnKey p.1) p.2.flight_number).set
      (ddKey p.1) (Value.dateStr p.2.departure_date))
    cleared

/-- A concrete row with three segments: two 1 hour apart, the third 200
hours later — so the code computes the two groups `gsShift`. -/
def rowShift : Row :=
  [("PaxName", Value.str "P"), ("BookingRef", Value.str "B1"),
   ("FlightNumber1", Value.str "A"),
   ("DepartureDateLocal1", Value.dateStr 0),
   ("FlightNumber2", Value.str "B"),
   ("DepartureDateLocal2", Value.dateStr 3600000000),
   ("FlightNumber3", Value.str "C"),
   ("DepartureDateLocal3", Value.dateStr 720000000000)]

def gsShift : List FlightGroup :=
  [⟨[⟨Value.str "A", 0⟩, ⟨Value.str "B", 3600000000⟩]⟩,
   ⟨[⟨Value.str "C", 720000000000⟩]⟩]

/-- The departure date of a group's first entry (0 for an empty group,
which the grouper never emits). -/
def headDate (g : FlightGroup) : Int :=
  match g.entries with
  | [] => 0
  | e :: _ => e.departure_date

/-- Walk used by `group_sorted_spec` below: inclusive boundary, as the
spec words it ("a gap exactly equal to the threshold stays"). -/
def specWalk (prev : Int) (rest : List FlightEntry) (cur : FlightGroup) :
    List FlightGroup :=
  match rest with
  | [] => [cur]
  | e :: rest' =>
    if mkRat (e.departure_date - prev) 3600000000 ≤ config.HOURS_THRESHOLD then
      specWalk e.departure_date rest' ⟨cur.entries ++ [e]⟩
    else cur :: specWalk e.departure_date rest' ⟨[e]⟩

/-- Modelled from the spec (Temporal Grouper §4.2 steps 1-3, which the
code does not implement as stated — it never sorts): stable-sort the
paired segments by timestamp ascending, then walk them, starting a new
group whenever the gap to the previous timestamp exceeds the
threshold. -/
def group_sorted_spec (departure_dates : List Int)
    (flight_numbers : List Value) : List FlightGroup :=
  match (List.zipWith (fun f d => (⟨f, d⟩ : FlightEntry))
      flight_numbers departure_dates).insertionSort
      (fun a b => a.departure_date ≤ b.departure_date) with
  | [] => []
  | e :: rest => specWalk e.departure_date rest ⟨[e]⟩

def c2dates : List Int := [720000000000, 0, 360000000000]

def c2flights : List Value := [Value.str "A", Value.str "B", Value.str "C"]

/-- What the code computes on the unsorted `c2dates`/`c2flights`. -/
def c2gsCode : List FlightGroup :=
  [⟨[⟨Value.str "A", 720000000000⟩, ⟨Value.str "B", 0⟩]⟩,
   ⟨[⟨Value.str "C", 360000000000⟩]⟩]

/-- What sorting first (as the spec prescribes) would compute. -/
def c2gsSorted : List FlightGroup :=
  [⟨[⟨Value.str "B", 0⟩]⟩, ⟨[⟨Value.str "C", 360000000000⟩]⟩,
   ⟨[⟨Value.str "A", 720000000000⟩]⟩]

/-- The groups the code computes on a sorted three-segment input
(0h, 1h, 200h). -/
def c2gsSortedInput : List FlightGroup :=
  [⟨[⟨Value.str "A", 0⟩, ⟨Value.str "B", 3600000000⟩]⟩,
   ⟨[⟨Value.str "C", 720000000000⟩]⟩]

theorem Row.getv_set_self (r : Row) (k : String) (v : Value) :
    (r.set k v).getv k = v := by
  simp [Row.set, Row.getv, Row.getD, Row.get, List.lookup]

theorem Row.getv_set_ne (r : Row) (k k' : String) (v : Value) (h : k' ≠ k) :
    (r.set k v).getv k' = r.getv k' := by
  have hb : (k' == k) = false := beq_eq_false_iff_ne.mpr h
  simp [Row.set, Row.getv, Row.getD, Row.get, List.lookup, hb]

theorem fnKey_length (i : Nat) : (fnKey i).length = 12 + (toString i).length := by
  simp [fnKey, String.length_append]
  rfl

theorem ddKey_length (i : Nat) : (ddKey i).length = 18 + (toString i).length := by
  simp [ddKey, String.length_append]
  rfl

theorem fnKey_ne_ddKey (i j : Nat) (h : (toString i).length = (toString j).length) :
    fnKey i ≠ ddKey j := by
  intro hk
  have := congrArg String.length hk
  rw [fnKey_length, ddKey_length, h] at this
  omega

/-- C8: a row whose extraction yields an empty departure-date sequence or
an empty flight-number sequence makes `process_flight_row` return the
skipped result "No flight data to process" with success, and no
persistence call is made. -/
theorem c8_empty_extraction_skipped (row : Row)
    (h : (extract_flight_data_from_row row).1 = [] ∨
         (extract_flight_data_from_row row).2 = []) :
    process_flight_row row =
      ({ original_row := FlightRow.from_dataframe_row row
       , groups := []
       , success := true
       , message := "No flight data to process" }, []) := by
  simp only [process_flight_row]
  rw [if_pos h]

theorem c8_empty_extraction_skipped_witness :
    ((extract_flight_data_from_row ([] : Row)).1 = [] ∨
     (extract_flight_data_from_row ([] : Row)).2 = []) ∧
    process_flight_row ([] : Row) =
      ({ original_row := FlightRow.from_dataframe_row ([] : Row)
       , groups := []
       , success := true
       , message := "No flight data to process" }, []) :=
  ⟨Or.inl (by decide),
   c8_empty_extraction_skipped ([] : Row) (Or.inl (by decide))⟩

/-- C7: when extraction produces non-empty sequences of unequal length,
the grouper's `FlightProcessorError` is caught at the row boundary:
`process_flight_row` still returns a `ProcessingResult`, with
`success = false`, the "Processing failed:" message, and no persistence
call.  (Totality of `process_flight_row` — a result is always returned,
never an exception — holds for every input by construction of the
embedding, which places the only reachable exception in the grouper's
`Except.error`.) -/
theorem c7_mismatch_caught (row : Row)
    (h1 : (extract_flight_data_from_row row).1 ≠ [])
    (h2 : (extract_flight_data_from_row row).2 ≠ [])
    (h3 : (extract_flight_data_from_row row).1.length ≠
          (extract_flight_data_from_row row).2.length) :
    (process_flight_row row).1.success = false ∧
    (process_flight_row row).1.message =
      "Processing failed: " ++ ("Mismatched lengths: "
        ++ toString (extract_flight_data_from_row row).1.length ++ " dates, "
        ++ toString (extract_flight_data_from_row row).2.length ++ " flights") ∧
    (process_flight_row row).2 = [] := by
  have herr : group_flights_by_departure_date
      (extract_flight_data_from_row row).1 (extract_flight_data_from_row row).2 =
      Except.error ("Mismatched lengths: "
        ++ toString (extract_flight_data_from_row row).1.length ++ " dates, "
        ++ toString (extract_flight_data_from_row row).2.length ++ " flights") := by
    rw [group_flights_by_departure_date.eq_def, if_pos h3]
  simp only [process_flight_row]
  rw [if_neg (by push_neg; exact ⟨h1, h2⟩)]
  rw [herr]
  exact ⟨rfl, rfl, rfl⟩

theorem c7_mismatch_caught_witness :
    ((extract_flight_data_from_row [("FlightNumber1", Value.str "X"),
        ("DepartureDateLocal1", Value.dateStr 0),
        ("FlightNumber2", Value.str "Y"),
        ("DepartureDateLocal2", Value.str "not a date")]).1 ≠ []) ∧
    ((process_flight_row [("FlightNumber1", Value.str "X"),
        ("DepartureDateLocal1", Value.dateStr 0),
        ("FlightNumber2", Value.str "Y"),
        ("DepartureDateLocal2", Value.str "not a date")]).1.success = false) :=
  ⟨by decide,
   (c7_mismatch_caught [("FlightNumber1", Value.str "X"),
        ("DepartureDateLocal1", Value.dateStr 0),
        ("FlightNumber2", Value.str "Y"),
        ("DepartureDateLocal2", Value.str "not a date")]
      (by decide) (by decide) (by decide)).1⟩

theorem group_ok_length_eq (dates : List Int) (flights : List Value)
    (gs : List FlightGroup)
    (h : group_flights_by_departure_date dates flights = Except.ok gs) :
    dates.length = flights.length := by
  by_contra hne
  rw [group_flights_by_departure_date.eq_def, if_pos hne] at h
  exact absurd h (by simp)

theorem group_ok_ne_nil (dates : List Int) (flights : List Value)
    (gs : List FlightGroup)
    (h : group_flights_by_departure_date dates flights = Except.ok gs)
    (hgs : gs ≠ []) :
    dates ≠ [] ∧ flights ≠ [] := by
  have hlen := group_ok_length_eq dates flights gs h
  match dates, flights, hlen with
  | [], [], _ =>
    rw [group_flights_by_departure_date.eq_def] at h
    simp at h
    exact absurd h hgs
  | d :: ds, f :: fs, _ => exact ⟨by simp, by simp⟩

theorem process_eq_of_group_ok (row : Row) (gs : List FlightGroup)
    (h : group_flights_by_departure_date (extract_flight_data_from_row row).1
           (extract_flight_data_from_row row).2 = Except.ok gs)
    (hgs : gs ≠ []) :
    process_flight_row row =
      if gs.length ≤ 1 then
        ({ original_row := FlightRow.from_dataframe_row row, groups := gs
         , success := true, message := "Single group - no processing needed" }, [])
      else
        ({ original_row := FlightRow.from_dataframe_row row, groups := gs
         , success := true, message := "Row processed and database updated" },
         [Effect.insert (insertRowData row gs),
          Effect.update (create_update_row_data row gs)]) := by
  obtain ⟨hd, hf⟩ := group_ok_ne_nil _ _ _ h hgs
  simp only [process_flight_row]
  rw [if_neg (by push_neg; exact ⟨hd, hf⟩)]
  split
  · rename_i e heq
    rw [h] at heq
    cases heq
  · rename_i gs' heq
    rw [h] at heq
    cases heq
    by_cases hle : gs.length ≤ 1
    · rw [if_pos hle, if_pos hle]
    · rw [if_neg hle, if_neg hle]
      split
      · rename_i d hd2
        rw [create_insert_row_data, if_neg hle] at hd2
        cases hd2
        rfl
      · rename_i hd2
        rw [create_insert_row_data, if_neg hle] at hd2
        cases hd2

/-- C9: when grouping the extracted data yields exactly one group,
`process_flight_row` reports "Single group - no processing needed" with
success and makes no persistence call at all, leaving the stored row
unchanged. -/
theorem c9_single_group_no_persistence (row : Row) (gs : List FlightGroup)
    (h : group_flights_by_departure_date (extract_flight_data_from_row row).1
           (extract_flight_data_from_row row).2 = Except.ok gs)
    (hone : gs.length = 1) :
    (process_flight_row row).1.message = "Single group - no processing needed" ∧
    (process_flight_row row).1.success = true ∧
    (process_flight_row row).2 = [] := by
  have hne : gs ≠ [] := by
    intro hnil
    rw [hnil] at hone
    simp at hone
  rw [process_eq_of_group_ok row gs h hne, if_pos (by omega)]
  exact ⟨rfl, rfl, rfl⟩

theorem c9_single_group_no_persistence_witness :
    group_flights_by_departure_date (extract_flight_data_from_row rowSingle).1
        (extract_flight_data_from_row rowSingle).2 =
      Except.ok [⟨[⟨Value.str "AA1", 0⟩]⟩] ∧
    (process_flight_row rowSingle).2 = [] :=
  ⟨by decide,
   (c9_single_group_no_persistence rowSingle [⟨[⟨Value.str "AA1", 0⟩]⟩]
      (by decide) (by decide)).2.2⟩

/-- C1 counterexample: on a row whose segments fall into two groups the
orchestrator issues exactly ONE insert (not one per group) and never
issues a delete (the repository exposes none); instead of deleting, it
updates the original row.  This refutes "one reassembled row per group,
insert each, then delete the original row". -/
theorem c1_counterexample :
    (process_flight_row rowMulti).1.groups.length = 2 ∧
    ((process_flight_row rowMulti).2.countP Effect.isInsert = 1) ∧
    ((process_flight_row rowMulti).2.countP Effect.isDelete = 0) ∧
    ((process_flight_row rowMulti).2.countP Effect.isUpdate = 1) := by
  decide

/-- C1 amended: for every row whose segments fall into more than one
group, the orchestrator builds a single combined insert row
(`create_insert_row_data`) and a single update row
(`create_update_row_data`), inserts the one new row via the persistence
gateway, then updates — not deletes — the original row by natural key. -/
theorem c1_amended_single_insert_then_update (row : Row)
    (gs : List FlightGroup)
    (h : group_flights_by_departure_date (extract_flight_data_from_row row).1
           (extract_flight_data_from_row row).2 = Except.ok gs)
    (h2 : 2 ≤ gs.length) :
    (process_flight_row row).2 =
      [Effect.insert (insertRowData row gs),
       Effect.update (create_update_row_data row gs)] ∧
    (process_flight_row row).1.success = true ∧
    (process_flight_row row).1.message = "Row processed and database updated" := by
  have hne : gs ≠ [] := by
    intro hnil
    rw [hnil] at h2
    simp at h2
  rw [process_eq_of_group_ok row gs h hne, if_neg (by omega)]
  exact ⟨rfl, rfl, rfl⟩

theorem c1_amended_single_insert_then_update_witness :
    group_flights_by_departure_date (extract_flight_data_from_row rowMulti).1
        (extract_flight_data_from_row rowMulti).2 = Except.ok gsMulti ∧
    (process_flight_row rowMulti).2 =
      [Effect.insert (insertRowData rowMulti gsMulti),
       Effect.update (create_update_row_data rowMulti gsMulti)] :=
  ⟨by decide,
   (c1_amended_single_insert_then_update rowMulti gsMulti
      (by decide) (by decide)).1⟩

/-- C3 counterexample: two segments exactly 24.0 hours apart
(86_400_000_000 microseconds) are SPLIT into two groups; the claim's
predicted single group is refuted. -/
theorem c3_counterexample :
    group_flights_by_departure_date [0, 86400000000]
        [Value.str "A", Value.str "B"] =
      Except.ok [⟨[⟨Value.str "A", 0⟩]⟩, ⟨[⟨Value.str "B", 86400000000⟩]⟩] ∧
    group_flights_by_departure_date [0, 86400000000]
        [Value.str "A", Value.str "B"] ≠
      Except.ok [⟨[⟨Value.str "A", 0⟩, ⟨Value.str "B", 86400000000⟩]⟩] := by
  decide

/-- C3 amended: the boundary is EXCLUSIVE — a pair of consecutive
segments stays in one group exactly when the difference is strictly
below the 24-hour threshold; a difference of exactly 24.0 hours (and a
fortiori 24.000001 hours) starts a new group. -/
theorem c3_amended_exclusive_boundary (t1 t2 : Int) (f1 f2 : Value) :
    (calculate_hours_difference (some t1) (some t2) < config.HOURS_THRESHOLD →
      group_flights_by_departure_date [t1, t2] [f1, f2] =
        Except.ok [⟨[⟨f1, t1⟩, ⟨f2, t2⟩]⟩]) ∧
    (config.HOURS_THRESHOLD ≤ calculate_hours_difference (some t1) (some t2) →
      group_flights_by_departure_date [t1, t2] [f1, f2] =
        Except.ok [⟨[⟨f1, t1⟩]⟩, ⟨[⟨f2, t2⟩]⟩]) := by
  constructor <;> intro h <;>
    · rw [group_flights_by_departure_date.eq_def, if_neg (by simp)]
      simp [groupAux, h, not_lt.mpr]

theorem c3_amended_exclusive_boundary_witness :
    group_flights_by_departure_date [0, 3600000000]
        [Value.str "A", Value.str "B"] =
      Except.ok [⟨[⟨Value.str "A", 0⟩, ⟨Value.str "B", 3600000000⟩]⟩] ∧
    group_flights_by_departure_date [0, 86400000000]
        [Value.str "A", Value.str "B"] =
      Except.ok [⟨[⟨Value.str "A", 0⟩]⟩, ⟨[⟨Value.str "B", 86400000000⟩]⟩] ∧
    group_flights_by_departure_date [0, 86400003600]
        [Value.str "A", Value.str "B"] =
      Except.ok [⟨[⟨Value.str "A", 0⟩]⟩, ⟨[⟨Value.str "B", 86400003600⟩]⟩] :=
  ⟨(c3_amended_exclusive_boundary 0 3600000000 (Value.str "A") (Value.str "B")).1
      (by decide),
   (c3_amended_exclusive_boundary 0 86400000000 (Value.str "A") (Value.str "B")).2
      (by decide),
   (c3_amended_exclusive_boundary 0 86400003600 (Value.str "A") (Value.str "B")).2
      (by decide)⟩

/-- C5 counterexample: on a row whose final emitted group holds a
duplicate timestamp (and duplicate flight number), the grouper reports
nothing but the groups, and the orchestrator inserts no quarantine row
and deletes nothing — the persistence trace is empty. -/
theorem c5_counterexample :
    (process_flight_row rowDup).1.groups =
      [⟨[⟨Value.str "A", 0⟩, ⟨Value.str "A", 0⟩]⟩] ∧
    (process_flight_row rowDup).2 = [] ∧
    (process_flight_row rowDup).1.message =
      "Single group - no processing needed" := by
  decide

/-- C5 amended: `group_flights_by_departure_date` returns only the list
of groups — it computes no duplicate-timestamp or duplicate-flight
frequency information — and `process_flight_row` never builds a
quarantine row or deletes the original: for every row whatsoever, the
persistence trace is either empty, or exactly one insert of the combined
shifted row followed by one update of the original row. -/
theorem c5_amended_no_quarantine (row : Row) :
    (process_flight_row row).2 = [] ∨
    ∃ gs, group_flights_by_departure_date
        (extract_flight_data_from_row row).1
        (extract_flight_data_from_row row).2 = Except.ok gs ∧
      2 ≤ gs.length ∧
      (process_flight_row row).2 =
        [Effect.insert (insertRowData row gs),
         Effect.update (create_update_row_data row gs)] := by
  simp only [process_flight_row]
  split
  · exact Or.inl rfl
  · split
    · exact Or.inl rfl
    · rename_i gs heq
      split
      · exact Or.inl rfl
      · rename_i hle
        split
        · rename_i d hd2
          refine Or.inr ⟨gs, heq, by omega, ?_⟩
          rw [create_insert_row_data, if_neg hle] at hd2
          cases hd2
          rfl
        · exact Or.inl rfl

/-- C4 counterexample: a row whose every flight number ends in "000" is
NOT excluded by extraction — the slot appears in both output sequences —
and the orchestrator consequently does not return the SKIPPED result:
it proceeds to the single-group outcome.  (`has_bus_transition` does
flag the row, but `process_flight_row` never calls it.) -/
theorem c4_counterexample :
    has_bus_transition rowBus = true ∧
    extract_flight_data_from_row rowBus = ([0], [Value.str "AB1000"]) ∧
    (process_flight_row rowBus).1.message =
      "Single group - no processing needed" ∧
    (process_flight_row rowBus).1.message ≠ "No flight data to process" := by
  decide

theorem extract_foldl_snd (r : Row) (is : List Nat)
    (acc : List Int × List Value) :
    (is.foldl (extractStep r) acc).2 =
      acc.2 ++ (is.map fun i => r.getv (fnKey i)).filter
        (fun v => pd_notnull v && (v != Value.str "NULL")) := by
  induction is generalizing acc with
  | nil => simp
  | cons i is ih =>
    rw [List.foldl_cons, ih]
    have hstep : (extractStep r acc i).2 =
        if pd_notnull (r.getv (fnKey i)) &&
            (r.getv (fnKey i) != Value.str "NULL") then
          acc.2 ++ [r.getv (fnKey i)]
        else acc.2 := rfl
    by_cases hp : (pd_notnull (r.getv (fnKey i)) &&
        (r.getv (fnKey i) != Value.str "NULL")) = true
    · rw [List.map_cons, List.filter_cons, if_pos hp, hstep, if_pos hp,
        List.append_assoc]
      rfl
    · rw [List.map_cons, List.filter_cons, if_neg hp, hstep, if_neg hp]

/-- C4 amended: extraction performs no "ground transfer" filtering — its
flight-number output is exactly the list of the 7 flight-number slots
that are non-null and not the literal `'NULL'`, regardless of whether
they end in three zeros.  (`has_bus_transition` would detect such
values, but is dead code with respect to the orchestrator, so a row
whose flight numbers all end in "000" is processed normally, not
SKIPPED.) -/
theorem c4_amended_no_bus_filtering (row : Row) :
    (extract_flight_data_from_row row).2 =
      (slotIdxs.map fun i => row.getv (fnKey i)).filter
        (fun v => pd_notnull v && (v != Value.str "NULL")) := by
  rw [extract_flight_data_from_row, extract_foldl_snd]
  rfl

theorem updStepFlight_getv_ne (r : Row) (i : Nat) (k : String)
    (h1 : k ≠ fnKey i) : (updStepFlight r i).getv k = r.getv k := by
  unfold updStepFlight
  split <;> simp [Row.getv_set_ne, h1]

theorem updStepDate_getv_ne (r : Row) (i : Nat) (k : String)
    (h2 : k ≠ ddKey i) : (updStepDate r i).getv k = r.getv k := by
  unfold updStepDate
  split <;> simp [Row.getv_set_ne, h2]

theorem updStep_getv_ne (r : Row) (i : Nat) (k : String)
    (h1 : k ≠ fnKey i) (h2 : k ≠ ddKey i) :
    (updStep r i).getv k = r.getv k := by
  rw [updStep, updStepDate_getv_ne _ _ _ h2, updStepFlight_getv_ne _ _ _ h1]

theorem updStepFlight_getv_fn (r : Row) (i : Nat) :
    (updStepFlight r i).getv (fnKey i) =
      if r.getv (fnKey i) = Value.str "NULL" then Value.null
      else r.getv (fnKey i) := by
  unfold updStepFlight
  split <;> simp [Row.getv_set_self]

theorem updStepDate_getv_dd (r : Row) (i : Nat) :
    (updStepDate r i).getv (ddKey i) =
      if r.getv (ddKey i) = Value.str "NULL" then Value.null
      else r.getv (ddKey i) := by
  unfold updStepDate
  split <;> simp [Row.getv_set_self]

theorem updStep_getv_fn (r : Row) (i : Nat) :
    (updStep r i).getv (fnKey i) =
      if r.getv (fnKey i) = Value.str "NULL" then Value.null
      else r.getv (fnKey i) := by
  have hne : fnKey i ≠ ddKey i := fnKey_ne_ddKey i i rfl
  rw [updStep, updStepDate_getv_ne _ _ _ hne, updStepFlight_getv_fn]

theorem updStep_getv_dd (r : Row) (i : Nat) :
    (updStep r i).getv (ddKey i) =
      if r.getv (ddKey i) = Value.str "NULL" then Value.null
      else r.getv (ddKey i) := by
  have hne : (ddKey i : String) ≠ fnKey i := fun h => fnKey_ne_ddKey i i rfl h.symm
  rw [updStep, updStepDate_getv_dd, updStepFlight_getv_ne _ _ _ hne]

theorem foldl_updStep_getv (is : List Nat) (r : Row) (k : String) :
    (is.foldl updStep r).getv k =
      if ∃ i ∈ is, k = fnKey i ∨ k = ddKey i then
        (if r.getv k = Value.str "NULL" then Value.null else r.getv k)
      else r.getv k := by
  induction is generalizing r with
  | nil => simp
  | cons i is ih =>
    rw [List.foldl_cons, ih]
    by_cases hki : k = fnKey i ∨ k = ddKey i
    · have hout : (updStep r i).getv k =
          if r.getv k = Value.str "NULL" then Value.null else r.getv k := by
        rcases hki with h | h
        · rw [h]; exact updStep_getv_fn r i
        · rw [h]; exact updStep_getv_dd r i
      rw [hout]
      have hex : ∃ j ∈ i :: is, k = fnKey j ∨ k = ddKey j :=
        ⟨i, List.mem_cons_self i is, hki⟩
      rw [if_pos hex]
      by_cases hmem : ∃ j ∈ is, k = fnKey j ∨ k = ddKey j
      · rw [if_pos hmem]
        by_cases hnull : r.getv k = Value.str "NULL"
        · simp [hnull]
        · simp [hnull]
      · rw [if_neg hmem]
    · have hout := updStep_getv_ne r i k (not_or.mp hki).1 (not_or.mp hki).2
      rw [hout]
      by_cases hmem : ∃ j ∈ is, k = fnKey j ∨ k = ddKey j
      · have hex : ∃ j ∈ i :: is, k = fnKey j ∨ k = ddKey j := by
          obtain ⟨j, hj, hP⟩ := hmem
          exact ⟨j, List.mem_cons_of_mem i hj, hP⟩
        rw [if_pos hmem, if_pos hex]
      · have hnex : ¬∃ j ∈ i :: is, k = fnKey j ∨ k = ddKey j := by
          rintro ⟨j, hj, hP⟩
          rcases List.mem_cons.mp hj with rfl | hj2
          · exact hki hP
          · exact hmem ⟨j, hj2, hP⟩
        rw [if_neg hmem, if_neg hnex]

/-- C10: `create_update_row_data` ignores its `groups` argument entirely,
replaces each of the 7 flight-number and 7 departure-date slots holding
the literal string `'NULL'` by `None`, and leaves every other key of the
row unchanged — no segment slot is cleared or moved. -/
theorem c10_update_row_null_replacement (row : Row)
    (groups1 groups2 : List FlightGroup) (k : String) :
    create_update_row_data row groups1 = create_update_row_data row groups2 ∧
    ((∃ i ∈ slotIdxs, k = fnKey i ∨ k = ddKey i) →
      (create_update_row_data row groups1).getv k =
        if row.getv k = Value.str "NULL" then Value.null else row.getv k) ∧
    ((∀ i ∈ slotIdxs, k ≠ fnKey i ∧ k ≠ ddKey i) →
      (create_update_row_data row groups1).getv k = row.getv k) := by
  refine ⟨rfl, ?_, ?_⟩
  · intro hmem
    rw [create_update_row_data, foldl_updStep_getv, if_pos hmem]
  · intro hnot
    rw [create_update_row_data, foldl_updStep_getv, if_neg ?_]
    rintro ⟨i, hi, hP⟩
    rcases hP with h | h
    · exact (hnot i hi).1 h
    · exact (hnot i hi).2 h

theorem c10_update_row_null_replacement_witness :
    (create_update_row_data rowNullSentinel []).getv "FlightNumber1" =
      (if rowNullSentinel.getv "FlightNumber1" = Value.str "NULL" then
        Value.null
       else rowNullSentinel.getv "FlightNumber1") ∧
    (create_update_row_data rowNullSentinel []).getv "PaxName" =
      rowNullSentinel.getv "PaxName" :=
  ⟨(c10_update_row_null_replacement rowNullSentinel [] [] "FlightNumber1").2.1
      (by decide),
   (c10_update_row_null_replacement rowNullSentinel [] [] "PaxName").2.2
      (by decide)⟩

theorem insertLoopInner_getv_ne (orig : Row) (k : String)
    (hk : ∀ i ∈ slotIdxs, k ≠ fnKey i ∧ k ≠ ddKey i) :
    ∀ (entries : List FlightEntry) (g eIdx : Nat) (acc : Row),
      1 ≤ g →
      (insertLoopInner orig g entries eIdx acc).getv k = acc.getv k := by
  intro entries
  induction entries with
  | nil => intro g eIdx acc hg; rfl
  | cons e rest ih =>
    intro g eIdx acc hg
    rw [insertLoopInner]
    by_cases hge : g + eIdx ≥ config.MAX_FLIGHT_ENTRIES
    · rw [if_pos hge]
    · rw [if_neg hge]
      rw [ih _ _ _ hg]
      have ht : g + eIdx ∈ slotIdxs := by
        rw [slotIdxs, List.mem_range'_1]
        unfold config.MAX_FLIGHT_ENTRIES at hge ⊢
        omega
      have ht1 : g + eIdx + 1 ∈ slotIdxs := by
        rw [slotIdxs, List.mem_range'_1]
        unfold config.MAX_FLIGHT_ENTRIES at hge ⊢
        omega
      rw [Row.getv_set_ne _ _ _ _ (hk _ ht1).2,
          Row.getv_set_ne _ _ _ _ (hk _ ht1).1,
          Row.getv_set_ne _ _ _ _ (hk _ ht).2,
          Row.getv_set_ne _ _ _ _ (hk _ ht).1]

theorem insertLoopOuter_getv_ne (orig : Row) (k : String)
    (hk : ∀ i ∈ slotIdxs, k ≠ fnKey i ∧ k ≠ ddKey i) :
    ∀ (groups : List FlightGroup) (g : Nat) (acc : Row), 1 ≤ g →
      (insertLoopOuter orig g groups acc).getv k = acc.getv k := by
  intro groups
  induction groups with
  | nil => intro g acc hg; rfl
  | cons grp rest ih =>
    intro g acc hg
    rw [insertLoopOuter]
    by_cases hge : g ≥ config.MAX_FLIGHT_ENTRIES
    · rw [if_pos hge]
    · rw [if_neg hge]
      rw [ih _ _ (by omega)]
      exact insertLoopInner_getv_ne orig k hk grp.entries g 0 acc hg

/-- C6 counterexample: `create_insert_row_data` produces a SINGLE row
(not one per group), and that row is the dense reassembly of neither
group: its slot 1 holds "B" (the original slot 2, shifted), whereas the
spec's per-group rows would put "A" (first group) or "C" (second group)
there. -/
theorem c6_counterexample :
    ((create_insert_row_data rowShift gsShift).map
        fun r => r.getv "FlightNumber1") = some (Value.str "B") ∧
    (build_group_row_spec rowShift
        ⟨[⟨Value.str "A", 0⟩, ⟨Value.str "B", 3600000000⟩]⟩).getv
      "FlightNumber1" = Value.str "A" ∧
    (build_group_row_spec rowShift
        ⟨[⟨Value.str "C", 720000000000⟩]⟩).getv
      "FlightNumber1" = Value.str "C" ∧
    Value.str "B" ≠ Value.str "A" ∧ Value.str "B" ≠ Value.str "C" := by
  decide

/-- C6 amended: for more than one group, `create_insert_row_data`
returns exactly one combined row, built by shifting the original row's
slot contents (slot `g+e` receives original slot `g+e+1`, which is then
cleared) rather than by writing group entries densely; every
non-segment field of that row is copied unchanged from the original
row. -/
theorem c6_amended_nonsegment_frame (row : Row) (groups : List FlightGroup)
    (k : String) (hg : 2 ≤ groups.length)
    (hk : ∀ i ∈ slotIdxs, k ≠ fnKey i ∧ k ≠ ddKey i) :
    create_insert_row_data row groups = some (insertRowData row groups) ∧
    (insertRowData row groups).getv k = row.getv k := by
  constructor
  · rw [create_insert_row_data, if_neg (by omega)]
  · rw [insertRowData]
    exact insertLoopOuter_getv_ne row k hk groups 1 row (by omega)

theorem c6_amended_nonsegment_frame_witness :
    create_insert_row_data rowShift gsShift =
      some (insertRowData rowShift gsShift) ∧
    (insertRowData rowShift gsShift).getv "PaxName" =
      rowShift.getv "PaxName" :=
  c6_amended_nonsegment_frame rowShift gsShift "PaxName" (by decide) (by decide)

/-- C2 counterexample: on an input that is not sorted by timestamp
(200h, 0h, 100h) the grouper walks the segments in their given order —
it does not sort — and emits groups whose first elements are NOT in
chronological order (200h before 100h), differing from what the
sort-first procedure of the spec would produce. -/
theorem c2_counterexample :
    group_flights_by_departure_date c2dates c2flights =
      Except.ok c2gsCode ∧
    c2gsCode.map headDate = [720000000000, 360000000000] ∧
    ¬ List.Chain' (fun a b => a ≤ b) (c2gsCode.map headDate) ∧
    group_sorted_spec c2dates c2flights = c2gsSorted ∧
    c2gsCode ≠ c2gsSorted := by
  refine ⟨by decide, by decide, ?_, by decide, by decide⟩
  have hmap : c2gsCode.map headDate = [720000000000, 360000000000] := by decide
  rw [hmap]
  intro h
  exact absurd (List.chain'_cons.mp h).1 (by decide)

theorem headDate_append (l : List FlightEntry) (e : FlightEntry)
    (h : l ≠ []) : headDate ⟨l ++ [e]⟩ = headDate ⟨l⟩ := by
  cases l with
  | nil => exact absurd rfl h
  | cons a l2 => rfl

theorem groupAux_headDate (rest : List (Int × Value)) :
    ∀ (prev : Int) (cur : FlightGroup), cur.entries ≠ [] →
      ((groupAux prev rest cur).map headDate).head? = some (headDate cur) := by
  induction rest with
  | nil =>
    intro prev cur hne
    rw [groupAux, if_neg (by simpa [List.isEmpty_iff] using hne)]
    rfl
  | cons p rest2 ih =>
    intro prev cur hne
    obtain ⟨d, f⟩ := p
    rw [groupAux]
    by_cases hlt : calculate_hours_difference (some prev) (some d) <
        config.HOURS_THRESHOLD
    · rw [if_pos hlt]
      have hgrp : (⟨cur.entries ++ [⟨f, d⟩]⟩ : FlightGroup).entries ≠ [] := by
        simp
      rw [ih d _ hgrp]
      rw [headDate_append _ _ hne]
    · rw [if_neg hlt]
      rfl

theorem groupAux_chain (rest : List (Int × Value)) :
    ∀ (prev : Int) (cur : FlightGroup), cur.entries ≠ [] →
      headDate cur ≤ prev →
      List.Chain' (fun a b => a ≤ b) (prev :: rest.map Prod.fst) →
      List.Chain' (fun a b => a ≤ b)
        ((groupAux prev rest cur).map headDate) := by
  induction rest with
  | nil =>
    intro prev cur hne _ _
    rw [groupAux, if_neg (by simpa [List.isEmpty_iff] using hne)]
    simp
  | cons p rest2 ih =>
    obtain ⟨d, f⟩ := p
    intro prev cur hne hhd hchain
    have hpd : prev ≤ d := (List.chain'_cons.mp hchain).1
    have htail : List.Chain' (fun a b => a ≤ b) (d :: rest2.map Prod.fst) :=
      (List.chain'_cons.mp hchain).2
    rw [groupAux]
    by_cases hlt : calculate_hours_difference (some prev) (some d) <
        config.HOURS_THRESHOLD
    · rw [if_pos hlt]
      have hgrp : (⟨cur.entries ++ [⟨f, d⟩]⟩ : FlightGroup).entries ≠ [] := by
        simp
      have hhd2 : headDate ⟨cur.entries ++ [⟨f, d⟩]⟩ ≤ d := by
        rw [headDate_append _ _ hne]
        exact le_trans hhd hpd
      exact ih d _ hgrp hhd2 htail
    · rw [if_neg hlt]
      rw [List.map_cons, List.chain'_cons']
      have hone : (⟨[⟨f, d⟩]⟩ : FlightGroup).entries ≠ [] := by simp
      have honehd : headDate ⟨[⟨f, d⟩]⟩ ≤ d := le_of_eq rfl
      constructor
      · intro y hy
        rw [groupAux_headDate rest2 d _ hone] at hy
        cases hy
        exact le_trans hhd hpd
      · exact ih d _ hone honehd htail

/-- C2 amended: the grouper does NOT sort its input; it walks the
segments in the given order, starting a new group when the signed gap to
the previous timestamp reaches 24 hours.  Consequently the emitted
groups preserve chronological order of their first elements precisely
when the input timestamps are already sorted ascending (as the upstream
rows are expected to be); for unsorted input the order can be broken. -/
theorem c2_amended_sorted_heads_chronological (dates : List Int)
    (flights : List Value) (gs : List FlightGroup)
    (hsorted : List.Chain' (fun a b => a ≤ b) dates)
    (h : group_flights_by_departure_date dates flights = Except.ok gs) :
    List.Chain' (fun a b => a ≤ b) (gs.map headDate) := by
  have hlen := group_ok_length_eq dates flights gs h
  match dates, flights, hlen with
  | [], [], _ =>
    rw [group_flights_by_departure_date.eq_def] at h
    simp at h
    rw [h]
    simp
  | d :: ds, f :: fs, hlen2 =>
    have hlen3 : ds.length = fs.length := by simpa using hlen2
    rw [group_flights_by_departure_date.eq_def,
        if_neg (fun hcontra => hcontra hlen2)] at h
    injection h with h
    rw [← h]
    have hone : (⟨[⟨f, d⟩]⟩ : FlightGroup).entries ≠ [] := by simp
    have honehd : headDate ⟨[⟨f, d⟩]⟩ ≤ d := le_of_eq rfl
    apply groupAux_chain (ds.zip fs) d _ hone honehd
    rw [List.map_fst_zip ds fs (le_of_eq hlen3)]
    exact hsorted

theorem c2_amended_sorted_heads_chronological_witness :
    List.Chain' (fun a b => a ≤ b)
      [(0 : Int), 3600000000, 720000000000] ∧
    group_flights_by_departure_date [0, 3600000000, 720000000000]
      [Value.str "A", Value.str "B", Value.str "C"] =
      Except.ok c2gsSortedInput ∧
    List.Chain' (fun a b => a ≤ b) (c2gsSortedInput.map headDate) :=
  ⟨List.chain'_cons.mpr ⟨by decide, List.chain'_cons.mpr ⟨by decide, List.chain'_singleton _⟩⟩,
   by decide,
   c2_amended_sorted_heads_chronological [0, 3600000000, 720000000000]
     [Value.str "A", Value.str "B", Value.str "C"] c2gsSortedInput
     (List.chain'_cons.mpr ⟨by decide, List.chain'_cons.mpr ⟨by decide, List.chain'_singleton _⟩⟩)
     (by decide)⟩
